import Mathlib

/-!
Shallow embedding of the recipe dependency tree resolver of
`src/api/routes/items.py` (bitcraft-planner), together with proofs of its
specified properties.

The resolver consists of:
* `calculate_recipe_tree_by_item` / `calculate_recipe_tree_by_recipe`
  (lines 357-476): the mutually recursive tree expander;
* the route handlers `get_item_recipe_tree` (lines 479-513) and
  `get_recipe_tree` (lines 516-542).

The database is modelled as a read-only `Catalog` of lookup functions
mirroring `GameItemOrm.get_by_id`, `GameItemRecipeProducedOrm.get_by_item_id`
and `GameItemRecipeOrm.get_by_id`.
-/

/-- Mirrors the pydantic model `RecipeTreeItem` (items.py lines 46-50);
`is_base_material` defaults to `false` as in the source. -/
structure RecipeTreeItem where
  item_id : Nat
  item_name : String
  amount : Nat
  is_base_material : Bool := false
deriving Repr, DecidableEq

/-- Mirrors the pydantic model `RecipeTreeStep` (items.py lines 53-55). -/
structure RecipeTreeStep where
  depth : Nat
  items : List RecipeTreeItem
deriving Repr, DecidableEq

/-- Mirrors the pydantic model `RecipeTreeResponse` (items.py lines 58-63). -/
structure RecipeTreeResponse where
  recipe_id : Nat
  item_id : Nat
  item_name : String
  steps : List RecipeTreeStep
  base_materials : List RecipeTreeItem
deriving Repr, DecidableEq

/-- One row of `game_item_recipe_consumed` / `game_item_recipe_produced`
(models/gamedata.py lines 31-44), restricted to the two columns the resolver
reads: `item_id` and `amount`. -/
structure RecipeItemStack where
  item_id : Nat
  amount : Nat
deriving Repr, DecidableEq

/-- The columns of `GameItemRecipeOrm` (models/gamedata.py lines 55-66) that
the resolver reads. `building_type_requirement` is a non-nullable integer
column. -/
structure GameItemRecipe where
  building_type_requirement : Int
  consumed_items : List RecipeItemStack
  produced_items : List RecipeItemStack
deriving Repr, DecidableEq

/-- The read-only game-data store as seen by the resolver:
* `item_name i` models `GameItemOrm.get_by_id(i)` (`none` = no row,
  `some s` = a row whose `name` column is `s`);
* `produced_by i` models the `recipe_id` column of the rows returned by
  `GameItemRecipeProducedOrm.get_by_item_id(i)`, in catalog order;
* `recipe r` models `GameItemRecipeOrm.get_by_id(r)`. -/
structure Catalog where
  item_name : Nat → Option String
  produced_by : Nat → List Nat
  recipe : Nat → Option GameItemRecipe

/-- The reserved building-type id `127749503` that marks reforging recipes
(items.py lines 380, 384, 493, 497). -/
def REFORGING_BUILDING_TYPE : Int := 127749503

/-- `item_orm.name if item_orm else f"Unknown Item {item_id}"`
(items.py lines 371, 391, 425, 444, 531). -/
def item_name_or_unknown (c : Catalog) (item_id : Nat) : String :=
  match c.item_name item_id with
  | some name => name
  | none => "Unknown Item " ++ toString item_id

/-- Construction of a base-material `RecipeTreeItem` at the requested amount
(items.py lines 372-377, 392-397, 426-431). -/
def base_material_entry (c : Catalog) (item_id : Nat) (amount : Nat) : RecipeTreeItem :=
  { item_id := item_id
    item_name := item_name_or_unknown c item_id
    amount := amount
    is_base_material := true }

/-- The step-list entry recorded for one consumed item (items.py lines
443-452): `total_needed = consumed_item.amount * recipe_runs`. -/
def consumed_step_item (c : Catalog) (consumed_item : RecipeItemStack) (runs : Nat) :
    RecipeTreeItem :=
  { item_id := consumed_item.item_id
    item_name := item_name_or_unknown c consumed_item.item_id
    amount := consumed_item.amount * runs
    is_base_material := false }

/-- `recipe_runs = (amount + produced_amount - 1) // produced_amount`
(items.py line 439, the ceiling division). -/
def recipe_runs (amount produced_amount : Nat) : Nat :=
  (amount + produced_amount - 1) / produced_amount

/-- Lines 437-438: the amount of the first produced item, defaulting to `1`
when the produced list is empty (`main_produced_item.amount if
main_produced_item else 1`). -/
def main_produced_amount (recipe_orm : GameItemRecipe) : Nat :=
  match recipe_orm.produced_items with
  | [] => 1
  | main_produced_item :: _ => main_produced_item.amount

/-- One merge step of the base-material aggregation loop (items.py lines
465-470): the first existing entry with the same `item_id` has its amount
incremented; otherwise the new entry is appended. -/
def add_base_material : List RecipeTreeItem → RecipeTreeItem → List RecipeTreeItem
  | [], sub_base => [sub_base]
  | existing :: rest, sub_base =>
    if existing.item_id == sub_base.item_id then
      { existing with amount := existing.amount + sub_base.amount } :: rest
    else
      existing :: add_base_material rest sub_base

/-- The whole `for sub_base in sub_base_materials` merge loop (items.py lines
464-470). -/
def merge_base_materials (base_materials new_materials : List RecipeTreeItem) :
    List RecipeTreeItem :=
  new_materials.foldl add_base_material base_materials

/-- The loop condition of the recipe-selection loops (items.py lines 382-386
and 495-499): a candidate is taken when its recipe row exists and its
`building_type_requirement` differs from the reforging constant. -/
def is_suitable_recipe (c : Catalog) (recipe_id : Nat) : Bool :=
  match c.recipe recipe_id with
  | some recipe_orm => recipe_orm.building_type_requirement != REFORGING_BUILDING_TYPE
  | none => false

/-- The recipe-selection loop itself: first candidate in catalog order whose
recipe row exists and is not reforging (items.py lines 381-386, 494-499). -/
def find_suitable_recipe (c : Catalog) : List Nat → Option Nat
  | [] => none
  | recipe_id :: rest =>
    if is_suitable_recipe c recipe_id then some recipe_id
    else find_suitable_recipe c rest

mutual

/-- Embeds `calculate_recipe_tree_by_item` (items.py lines 357-401).
The `some 0` branch reflects Python truthiness: the source guards the
selected id with `if not suitable_recipe_id`, which treats a selected
recipe id of `0` like `None`. -/
def calculate_recipe_tree_by_item (c : Catalog) (item_id : Nat) (amount : Nat)
    (depth : Nat) (max_depth : Nat) : List RecipeTreeStep × List RecipeTreeItem :=
  if _h : depth > max_depth then ([], [])
  else
    let item_recipes := c.produced_by item_id
    if item_recipes.isEmpty then
      ([], [base_material_entry c item_id amount])
    else
      match find_suitable_recipe c item_recipes with
      | none => ([], [base_material_entry c item_id amount])
      | some 0 => ([], [base_material_entry c item_id amount])
      | some suitable_recipe_id =>
        calculate_recipe_tree_by_recipe c suitable_recipe_id amount depth max_depth
termination_by (max_depth + 1 - depth, 2, 0)
decreasing_by
  apply Prod.Lex.right
  apply Prod.Lex.left
  omega

/-- Embeds `calculate_recipe_tree_by_recipe` (items.py lines 404-476). -/
def calculate_recipe_tree_by_recipe (c : Catalog) (recipe_id : Nat) (amount : Nat)
    (depth : Nat) (max_depth : Nat) : List RecipeTreeStep × List RecipeTreeItem :=
  if _h : depth > max_depth then ([], [])
  else
    match c.recipe recipe_id with
    | none => ([], [])
    | some recipe_orm =>
      if recipe_orm.consumed_items.isEmpty then
        ([], recipe_orm.produced_items.map
          (fun produced_item => base_material_entry c produced_item.item_id amount))
      else
        let runs := recipe_runs amount (main_produced_amount recipe_orm)
        let branch_results :=
          expand_consumed_items c recipe_orm.consumed_items runs (depth + 1) max_depth
        let steps := branch_results.foldl (fun acc br => acc ++ br.1) []
        let base_materials :=
          branch_results.foldl (fun acc br => merge_base_materials acc br.2) []
        let current_step_items :=
          recipe_orm.consumed_items.map
            (fun consumed_item => consumed_step_item c consumed_item runs)
        (if current_step_items.isEmpty then steps
         else { depth := depth, items := current_step_items } :: steps,
         base_materials)
termination_by (max_depth + 1 - depth, 1, 0)
decreasing_by
  apply Prod.Lex.left
  omega

/-- The `for consumed_item in recipe_orm.consumed_items` recursion of
items.py lines 442-460: each consumed item is expanded by item at
`depth + 1` with `total_needed = consumed_item.amount * recipe_runs`. -/
def expand_consumed_items (c : Catalog) (consumed : List RecipeItemStack) (runs : Nat)
    (depth : Nat) (max_depth : Nat) : List (List RecipeTreeStep × List RecipeTreeItem) :=
  match consumed with
  | [] => []
  | consumed_item :: rest =>
    calculate_recipe_tree_by_item c consumed_item.item_id (consumed_item.amount * runs)
        depth max_depth
      :: expand_consumed_items c rest runs depth max_depth
termination_by (max_depth + 1 - depth, 3, consumed.length)
decreasing_by
  · apply Prod.Lex.right
    apply Prod.Lex.left
    omega
  · apply Prod.Lex.right
    apply Prod.Lex.right
    simp

end

/-- Embeds the route handler `get_item_recipe_tree` (items.py lines 479-513).
Errors carry the HTTP status and detail of the raised `HTTPException`.
The `some 0` branch again reflects `if not suitable_recipe_id`. -/
def get_item_recipe_tree (c : Catalog) (item_id : Nat) (amount : Nat) :
    Except (Nat × String) RecipeTreeResponse :=
  match c.item_name item_id with
  | none => .error (404, "Item not found")
  | some item_name =>
    let item_recipes := c.produced_by item_id
    if item_recipes.isEmpty then
      .error (404, "No recipe found for this item")
    else
      match find_suitable_recipe c item_recipes with
      | none => .error (404,
          "No suitable crafting recipe found for this item (only reforging recipes available)")
      | some 0 => .error (404,
          "No suitable crafting recipe found for this item (only reforging recipes available)")
      | some suitable_recipe_id =>
        let result := calculate_recipe_tree_by_recipe c suitable_recipe_id amount 0 10
        .ok { recipe_id := suitable_recipe_id
              item_id := item_id
              item_name := item_name
              steps := result.1
              base_materials := result.2 }

/-- Embeds the route handler `get_recipe_tree` (items.py lines 516-542). -/
def get_recipe_tree (c : Catalog) (recipe_id : Nat) (amount : Nat) :
    Except (Nat × String) RecipeTreeResponse :=
  match c.recipe recipe_id with
  | none => .error (404, "Recipe not found")
  | some recipe_orm =>
    match recipe_orm.produced_items with
    | [] => .error (400, "Recipe produces no items")
    | main_produced_item :: _ =>
      let result := calculate_recipe_tree_by_recipe c recipe_id amount 0 10
      .ok { recipe_id := recipe_id
            item_id := main_produced_item.item_id
            item_name := item_name_or_unknown c main_produced_item.item_id
            steps := result.1
            base_materials := result.2 }

/-! ### Unfolding lemmas for the recursive expander -/

theorem calculate_by_item_depth_exceeded (c : Catalog) (item_id amount depth max_depth : Nat)
    (h : max_depth < depth) :
    calculate_recipe_tree_by_item c item_id amount depth max_depth = ([], []) := by
  rw [calculate_recipe_tree_by_item]
  exact dif_pos h

theorem calculate_by_recipe_depth_exceeded (c : Catalog) (recipe_id amount depth max_depth : Nat)
    (h : max_depth < depth) :
    calculate_recipe_tree_by_recipe c recipe_id amount depth max_depth = ([], []) := by
  rw [calculate_recipe_tree_by_recipe]
  exact dif_pos h

theorem calculate_by_recipe_missing (c : Catalog) (recipe_id amount depth max_depth : Nat)
    (hr : c.recipe recipe_id = none) :
    calculate_recipe_tree_by_recipe c recipe_id amount depth max_depth = ([], []) := by
  rw [calculate_recipe_tree_by_recipe]
  by_cases h : depth > max_depth
  · exact dif_pos h
  · rw [dif_neg h]
    simp [hr]

theorem calculate_by_recipe_gathering (c : Catalog) (recipe_id amount depth max_depth : Nat)
    (recipe_orm : GameItemRecipe) (hd : depth ≤ max_depth)
    (hr : c.recipe recipe_id = some recipe_orm) (hc : recipe_orm.consumed_items = []) :
    calculate_recipe_tree_by_recipe c recipe_id amount depth max_depth
      = ([], recipe_orm.produced_items.map
          (fun produced_item => base_material_entry c produced_item.item_id amount)) := by
  rw [calculate_recipe_tree_by_recipe]
  rw [dif_neg (by omega)]
  simp [hr, hc]

theorem calculate_by_recipe_main (c : Catalog) (recipe_id amount depth max_depth : Nat)
    (recipe_orm : GameItemRecipe) (hd : depth ≤ max_depth)
    (hr : c.recipe recipe_id = some recipe_orm) (hc : recipe_orm.consumed_items ≠ []) :
    calculate_recipe_tree_by_recipe c recipe_id amount depth max_depth
      = ({ depth := depth
           items := recipe_orm.consumed_items.map
             (fun consumed_item => consumed_step_item c consumed_item
               (recipe_runs amount (main_produced_amount recipe_orm))) } ::
           (expand_consumed_items c recipe_orm.consumed_items
              (recipe_runs amount (main_produced_amount recipe_orm))
              (depth + 1) max_depth).foldl (fun acc br => acc ++ br.1) [],
         (expand_consumed_items c recipe_orm.consumed_items
            (recipe_runs amount (main_produced_amount recipe_orm))
            (depth + 1) max_depth).foldl (fun acc br => merge_base_materials acc br.2) []) := by
  obtain ⟨a, t, hl⟩ : ∃ a t, recipe_orm.consumed_items = a :: t := by
    cases h : recipe_orm.consumed_items with
    | nil => exact absurd h hc
    | cons a t => exact ⟨a, t, rfl⟩
  rw [calculate_recipe_tree_by_recipe]
  rw [dif_neg (by omega)]
  simp only [hr, hl, List.isEmpty_cons, List.map_cons, Bool.false_eq_true, if_false]

theorem expand_consumed_items_nil (c : Catalog) (runs depth max_depth : Nat) :
    expand_consumed_items c [] runs depth max_depth = [] := by
  rw [expand_consumed_items]

theorem expand_consumed_items_cons (c : Catalog) (consumed_item : RecipeItemStack)
    (rest : List RecipeItemStack) (runs depth max_depth : Nat) :
    expand_consumed_items c (consumed_item :: rest) runs depth max_depth
      = calculate_recipe_tree_by_item c consumed_item.item_id (consumed_item.amount * runs)
          depth max_depth
        :: expand_consumed_items c rest runs depth max_depth := by
  rw [expand_consumed_items]

theorem calculate_by_item_no_producers (c : Catalog) (item_id amount depth max_depth : Nat)
    (hd : depth ≤ max_depth) (hp : c.produced_by item_id = []) :
    calculate_recipe_tree_by_item c item_id amount depth max_depth
      = ([], [base_material_entry c item_id amount]) := by
  rw [calculate_recipe_tree_by_item]
  rw [dif_neg (by omega)]
  simp [hp]

theorem calculate_by_item_no_suitable (c : Catalog) (item_id amount depth max_depth : Nat)
    (hd : depth ≤ max_depth)
    (hf : find_suitable_recipe c (c.produced_by item_id) = none) :
    calculate_recipe_tree_by_item c item_id amount depth max_depth
      = ([], [base_material_entry c item_id amount]) := by
  rw [calculate_recipe_tree_by_item]
  rw [dif_neg (by omega)]
  by_cases hp : (c.produced_by item_id).isEmpty
  · simp [hp]
  · simp [hp, hf]

theorem calculate_by_item_zero_selected (c : Catalog) (item_id amount depth max_depth : Nat)
    (hd : depth ≤ max_depth)
    (hf : find_suitable_recipe c (c.produced_by item_id) = some 0) :
    calculate_recipe_tree_by_item c item_id amount depth max_depth
      = ([], [base_material_entry c item_id amount]) := by
  rw [calculate_recipe_tree_by_item]
  rw [dif_neg (by omega)]
  have hp : (c.produced_by item_id).isEmpty = false := by
    cases hl : c.produced_by item_id with
    | nil =>
      rw [hl] at hf
      simp [find_suitable_recipe] at hf
    | cons a t => simp
  simp [hp, hf]

theorem calculate_by_item_selected (c : Catalog) (item_id amount depth max_depth : Nat)
    (suitable_recipe_id : Nat) (hd : depth ≤ max_depth)
    (hf : find_suitable_recipe c (c.produced_by item_id) = some suitable_recipe_id)
    (hnz : suitable_recipe_id ≠ 0) :
    calculate_recipe_tree_by_item c item_id amount depth max_depth
      = calculate_recipe_tree_by_recipe c suitable_recipe_id amount depth max_depth := by
  rw [calculate_recipe_tree_by_item]
  rw [dif_neg (by omega)]
  have hp : (c.produced_by item_id).isEmpty = false := by
    cases hl : c.produced_by item_id with
    | nil =>
      rw [hl] at hf
      simp [find_suitable_recipe] at hf
    | cons a t => simp
  cases suitable_recipe_id with
  | zero => exact absurd rfl hnz
  | succ k => simp [hp, hf]

/-! ### Aggregation lemmas -/

/-- Total amount recorded for one item id in a base-material list. -/
def amount_recorded (item_id : Nat) (l : List RecipeTreeItem) : Nat :=
  ((l.filter (fun b => b.item_id == item_id)).map (fun b => b.amount)).sum

/-- The item ids occurring in a base-material list. -/
def material_ids (l : List RecipeTreeItem) : List Nat :=
  l.map (fun b => b.item_id)

theorem amount_recorded_cons (i : Nat) (b : RecipeTreeItem) (l : List RecipeTreeItem) :
    amount_recorded i (b :: l)
      = (if b.item_id = i then b.amount else 0) + amount_recorded i l := by
  by_cases h : b.item_id = i
  · simp [amount_recorded, List.filter_cons, h]
  · simp [amount_recorded, List.filter_cons, h]

theorem amount_recorded_add_base (i : Nat) (l : List RecipeTreeItem) (sub_base : RecipeTreeItem) :
    amount_recorded i (add_base_material l sub_base)
      = amount_recorded i l + (if sub_base.item_id = i then sub_base.amount else 0) := by
  induction l with
  | nil =>
    by_cases h : sub_base.item_id = i
    · simp [add_base_material, amount_recorded, List.filter_cons, h]
    · simp [add_base_material, amount_recorded, List.filter_cons, h]
  | cons b t ih =>
    rw [add_base_material]
    by_cases h : b.item_id == sub_base.item_id
    · have he : b.item_id = sub_base.item_id := eq_of_beq h
      rw [if_pos h]
      rw [amount_recorded_cons, amount_recorded_cons]
      by_cases hi : sub_base.item_id = i
      · simp only [RecipeTreeItem.mk.injEq]
        simp [he, hi]
        omega
      · simp [he, hi]
    · rw [if_neg h]
      rw [amount_recorded_cons, amount_recorded_cons, ih]
      omega

theorem amount_recorded_merge (i : Nat) (l new_materials : List RecipeTreeItem) :
    amount_recorded i (merge_base_materials l new_materials)
      = amount_recorded i l + amount_recorded i new_materials := by
  induction new_materials generalizing l with
  | nil => simp [merge_base_materials, amount_recorded]
  | cons b t ih =>
    have hstep : merge_base_materials l (b :: t)
        = merge_base_materials (add_base_material l b) t := rfl
    rw [hstep, ih, amount_recorded_add_base, amount_recorded_cons]
    omega

theorem mem_material_ids_add_base (i : Nat) (l : List RecipeTreeItem)
    (sub_base : RecipeTreeItem) :
    i ∈ material_ids (add_base_material l sub_base)
      ↔ i ∈ material_ids l ∨ i = sub_base.item_id := by
  induction l with
  | nil => simp [add_base_material, material_ids, eq_comm]
  | cons b t ih =>
    rw [add_base_material]
    by_cases h : b.item_id == sub_base.item_id
    · have he : b.item_id = sub_base.item_id := eq_of_beq h
      rw [if_pos h]
      simp [material_ids, he]
      tauto
    · have he : ¬ b.item_id = sub_base.item_id := by
        intro hx
        simp [hx] at h
      rw [if_neg h]
      simp only [material_ids, List.map_cons, List.mem_cons] at ih ⊢
      rw [ih]
      tauto

theorem nodup_add_base (l : List RecipeTreeItem) (sub_base : RecipeTreeItem)
    (h : (material_ids l).Nodup) :
    (material_ids (add_base_material l sub_base)).Nodup := by
  induction l with
  | nil => simp [add_base_material, material_ids]
  | cons b t ih =>
    rw [add_base_material]
    simp only [material_ids, List.map_cons, List.nodup_cons] at h
    by_cases hb : b.item_id == sub_base.item_id
    · rw [if_pos hb]
      simp only [material_ids, List.map_cons, List.nodup_cons]
      exact h
    · rw [if_neg hb]
      have he : ¬ b.item_id = sub_base.item_id := by
        intro hx
        simp [hx] at hb
      simp only [material_ids, List.map_cons, List.nodup_cons]
      refine ⟨?_, ih h.2⟩
      rw [show (List.map (fun b => b.item_id) (add_base_material t sub_base))
            = material_ids (add_base_material t sub_base) from rfl]
      rw [mem_material_ids_add_base]
      rintro (hmem | hmem)
      · exact h.1 hmem
      · exact he hmem

theorem nodup_merge_base (l new_materials : List RecipeTreeItem)
    (h : (material_ids l).Nodup) :
    (material_ids (merge_base_materials l new_materials)).Nodup := by
  induction new_materials generalizing l with
  | nil => exact h
  | cons b t ih =>
    have hstep : merge_base_materials l (b :: t)
        = merge_base_materials (add_base_material l b) t := rfl
    rw [hstep]
    exact ih _ (nodup_add_base l b h)

theorem foldl_append_eq {α β : Type} (l : List α) (f : α → List β) (init : List β) :
    l.foldl (fun acc x => acc ++ f x) init = init ++ (l.map f).flatten := by
  induction l generalizing init with
  | nil => simp
  | cons a t ih => simp [ih]

/-! ### Ceiling-division arithmetic -/

theorem recipe_runs_pos (n p : Nat) (hn : 1 ≤ n) (hp : 1 ≤ p) :
    1 ≤ recipe_runs n p := by
  rw [recipe_runs, Nat.one_le_div_iff (by omega)]
  omega

theorem recipe_runs_eq_ceil (n p : Nat) (hn : 1 ≤ n) (hp : 1 ≤ p) :
    recipe_runs n p = ⌈(n : ℚ) / (p : ℚ)⌉₊ := by
  have hp0 : (0 : ℚ) < (p : ℚ) := by exact_mod_cast hp
  have h3 : 1 ≤ (n + p - 1) / p := by
    rw [Nat.one_le_div_iff (by omega)]
    omega
  rw [recipe_runs]
  symm
  rw [Nat.ceil_eq_iff (by omega)]
  constructor
  · rw [lt_div_iff₀ hp0]
    have h2 : (n + p - 1) / p * p ≤ n + p - 1 := Nat.div_mul_le_self _ _
    have h4 : ((n + p - 1) / p - 1) * p = (n + p - 1) / p * p - p := by
      rw [Nat.sub_mul, one_mul]
    have h5 : ((n + p - 1) / p - 1) * p < n := by omega
    calc ((((n + p - 1) / p - 1) : ℕ) : ℚ) * (p : ℚ)
        = ((((n + p - 1) / p - 1) * p : ℕ) : ℚ) := by push_cast; ring
      _ < (n : ℚ) := by exact_mod_cast h5
  · rw [div_le_iff₀ hp0]
    have hd : (n + p - 1) / p * p + (n + p - 1) % p = n + p - 1 := Nat.div_add_mod' _ _
    have hm : (n + p - 1) % p < p := Nat.mod_lt _ (by omega)
    have h6 : n ≤ (n + p - 1) / p * p := by omega
    calc (n : ℚ) ≤ (((n + p - 1) / p * p : ℕ) : ℚ) := by exact_mod_cast h6
      _ = (((n + p - 1) / p : ℕ) : ℚ) * (p : ℚ) := by push_cast; ring

/-! ### Membership in the accumulated step list -/

theorem mem_steps_foldl (branches : List (List RecipeTreeStep × List RecipeTreeItem))
    (s : RecipeTreeStep) :
    (s ∈ branches.foldl (fun acc br => acc ++ br.1) ([] : List RecipeTreeStep))
      ↔ ∃ br ∈ branches, s ∈ br.1 := by
  rw [foldl_append_eq]
  simp [List.mem_flatten]

/-! ### Positivity machinery -/

/-- Every consumed-item and produced-item per-run amount in the catalog is a
positive integer. -/
def pos_catalog (c : Catalog) : Prop :=
  ∀ rid r, c.recipe rid = some r →
    (∀ ci ∈ r.consumed_items, 1 ≤ ci.amount) ∧ (∀ pi ∈ r.produced_items, 1 ≤ pi.amount)

/-- Every amount in a `(steps, base_materials)` pair is a positive integer. -/
def pos_result (res : List RecipeTreeStep × List RecipeTreeItem) : Prop :=
  (∀ s ∈ res.1, ∀ it ∈ s.items, 1 ≤ it.amount) ∧ (∀ b ∈ res.2, 1 ≤ b.amount)

theorem pos_result_empty : pos_result (([], []) : List RecipeTreeStep × List RecipeTreeItem) := by
  constructor
  · intro s hs
    simp at hs
  · intro b hb
    simp at hb

theorem add_base_material_pos (l : List RecipeTreeItem) (sub_base : RecipeTreeItem)
    (hl : ∀ b ∈ l, 1 ≤ b.amount) (hs : 1 ≤ sub_base.amount) :
    ∀ b ∈ add_base_material l sub_base, 1 ≤ b.amount := by
  induction l with
  | nil =>
    intro b hb
    rw [add_base_material] at hb
    simp at hb
    subst hb
    exact hs
  | cons x t ih =>
    rw [add_base_material]
    by_cases h : x.item_id == sub_base.item_id
    · rw [if_pos h]
      intro b hb
      rcases List.mem_cons.mp hb with hb | hb
      · have hx := hl x (by simp)
        rw [hb]
        simp only []
        omega
      · exact hl b (by simp [hb])
    · rw [if_neg h]
      intro b hb
      rcases List.mem_cons.mp hb with hb | hb
      · exact hl b (by simp [hb])
      · exact ih (fun y hy => hl y (by simp [hy])) b hb

theorem merge_base_materials_pos (l new_materials : List RecipeTreeItem)
    (hl : ∀ b ∈ l, 1 ≤ b.amount) (hn : ∀ b ∈ new_materials, 1 ≤ b.amount) :
    ∀ b ∈ merge_base_materials l new_materials, 1 ≤ b.amount := by
  induction new_materials generalizing l with
  | nil => exact hl
  | cons x t ih =>
    have hstep : merge_base_materials l (x :: t)
        = merge_base_materials (add_base_material l x) t := rfl
    rw [hstep]
    exact ih _ (add_base_material_pos l x hl (hn x (by simp)))
      (fun y hy => hn y (by simp [hy]))

theorem foldl_merge_pos (branches : List (List RecipeTreeStep × List RecipeTreeItem))
    (init : List RecipeTreeItem) (hinit : ∀ b ∈ init, 1 ≤ b.amount)
    (hbr : ∀ br ∈ branches, ∀ b ∈ br.2, 1 ≤ b.amount) :
    ∀ b ∈ branches.foldl (fun acc br => merge_base_materials acc br.2) init, 1 ≤ b.amount := by
  induction branches generalizing init with
  | nil => exact hinit
  | cons br rest ih =>
    simp only [List.foldl_cons]
    exact ih _ (merge_base_materials_pos init br.2 hinit (hbr br (by simp)))
      (fun x hx => hbr x (by simp [hx]))

theorem expand_consumed_items_pos (c : Catalog) (depth max_depth : Nat)
    (hItem : ∀ item_id amount, 1 ≤ amount →
      pos_result (calculate_recipe_tree_by_item c item_id amount depth max_depth))
    (consumed : List RecipeItemStack) (hcons : ∀ ci ∈ consumed, 1 ≤ ci.amount)
    (runs : Nat) (hruns : 1 ≤ runs) :
    ∀ res ∈ expand_consumed_items c consumed runs depth max_depth, pos_result res := by
  induction consumed with
  | nil =>
    intro res hres
    rw [expand_consumed_items_nil] at hres
    simp at hres
  | cons ci rest ih =>
    rw [expand_consumed_items_cons]
    intro res hres
    rcases List.mem_cons.mp hres with h | h
    · subst h
      exact hItem _ _ (Nat.mul_pos (hcons ci (by simp)) hruns)
    · exact ih (fun x hx => hcons x (by simp [hx])) res h

theorem main_produced_amount_pos (c : Catalog) (rid : Nat) (r : GameItemRecipe)
    (hc : pos_catalog c) (hr : c.recipe rid = some r) :
    1 ≤ main_produced_amount r := by
  rcases hp : r.produced_items with _ | ⟨pi, rest⟩
  · simp [main_produced_amount, hp]
  · rw [main_produced_amount, hp]
    exact (hc rid r hr).2 pi (by simp [hp])

theorem pos_invariant (fuel : Nat) : ∀ c, pos_catalog c → ∀ depth max_depth,
    max_depth + 1 - depth ≤ fuel →
    (∀ recipe_id amount, 1 ≤ amount →
       pos_result (calculate_recipe_tree_by_recipe c recipe_id amount depth max_depth)) ∧
    (∀ item_id amount, 1 ≤ amount →
       pos_result (calculate_recipe_tree_by_item c item_id amount depth max_depth)) := by
  induction fuel with
  | zero =>
    intro c hc depth max_depth hf
    constructor
    · intro rid n hn
      rw [calculate_by_recipe_depth_exceeded c rid n depth max_depth (by omega)]
      exact pos_result_empty
    · intro i n hn
      rw [calculate_by_item_depth_exceeded c i n depth max_depth (by omega)]
      exact pos_result_empty
  | succ fuel ih =>
    intro c hc depth max_depth hf
    by_cases hdepth : max_depth < depth
    · constructor
      · intro rid n hn
        rw [calculate_by_recipe_depth_exceeded c rid n depth max_depth hdepth]
        exact pos_result_empty
      · intro i n hn
        rw [calculate_by_item_depth_exceeded c i n depth max_depth hdepth]
        exact pos_result_empty
    have hrec : ∀ recipe_id amount, 1 ≤ amount →
        pos_result (calculate_recipe_tree_by_recipe c recipe_id amount depth max_depth) := by
      intro rid n hn
      cases hr : c.recipe rid with
      | none =>
        rw [calculate_by_recipe_missing c rid n depth max_depth hr]
        exact pos_result_empty
      | some r =>
        by_cases hcons : r.consumed_items = []
        · rw [calculate_by_recipe_gathering c rid n depth max_depth r (by omega) hr hcons]
          constructor
          · intro s hs
            simp at hs
          · intro b hb
            simp only [List.mem_map] at hb
            obtain ⟨pi, hpi, rfl⟩ := hb
            exact hn
        · rw [calculate_by_recipe_main c rid n depth max_depth r (by omega) hr hcons]
          have hruns : 1 ≤ recipe_runs n (main_produced_amount r) :=
            recipe_runs_pos _ _ hn (main_produced_amount_pos c rid r hc hr)
          have hItem := (ih c hc (depth + 1) max_depth (by omega)).2
          have hbranch := expand_consumed_items_pos c (depth + 1) max_depth hItem
            r.consumed_items (hc rid r hr).1 _ hruns
          constructor
          · intro s hs
            rcases List.mem_cons.mp hs with hs | hs
            · subst hs
              intro it hit
              simp only [List.mem_map] at hit
              obtain ⟨ci, hci, rfl⟩ := hit
              exact Nat.mul_pos ((hc rid r hr).1 ci hci) hruns
            · rw [mem_steps_foldl] at hs
              obtain ⟨br, hbr, hsbr⟩ := hs
              exact (hbranch br hbr).1 s hsbr
          · intro b hb
            exact foldl_merge_pos _ [] (by simp)
              (fun br hbr => (hbranch br hbr).2) b hb
    refine ⟨hrec, ?_⟩
    intro i n hn
    by_cases hp : c.produced_by i = []
    · rw [calculate_by_item_no_producers c i n depth max_depth (by omega) hp]
      constructor
      · intro s hs
        simp at hs
      · intro b hb
        simp at hb
        subst hb
        exact hn
    rcases hfind : find_suitable_recipe c (c.produced_by i) with _ | rid
    · rw [calculate_by_item_no_suitable c i n depth max_depth (by omega) hfind]
      constructor
      · intro s hs
        simp at hs
      · intro b hb
        simp at hb
        subst hb
        exact hn
    · cases rid with
      | zero =>
        rw [calculate_by_item_zero_selected c i n depth max_depth (by omega) hfind]
        constructor
        · intro s hs
          simp at hs
        · intro b hb
          simp at hb
          subst hb
          exact hn
      | succ k =>
        rw [calculate_by_item_selected c i n depth max_depth (k + 1) (by omega) hfind
          (by omega)]
        exact hrec (k + 1) n hn

/-! ### Step-depth machinery -/

theorem expand_consumed_items_steps_ge (c : Catalog) (depth max_depth : Nat)
    (hItem : ∀ item_id amount,
      ∀ s ∈ (calculate_recipe_tree_by_item c item_id amount depth max_depth).1, depth ≤ s.depth)
    (consumed : List RecipeItemStack) (runs : Nat) :
    ∀ res ∈ expand_consumed_items c consumed runs depth max_depth,
      ∀ s ∈ res.1, depth ≤ s.depth := by
  induction consumed with
  | nil =>
    intro res hres
    rw [expand_consumed_items_nil] at hres
    simp at hres
  | cons ci rest ih =>
    rw [expand_consumed_items_cons]
    intro res hres
    rcases List.mem_cons.mp hres with h | h
    · exact h ▸ hItem _ _
    · exact ih res h

theorem steps_depth_invariant (fuel : Nat) : ∀ c depth max_depth,
    max_depth + 1 - depth ≤ fuel →
    (∀ recipe_id amount,
       ∀ s ∈ (calculate_recipe_tree_by_recipe c recipe_id amount depth max_depth).1,
         depth ≤ s.depth) ∧
    (∀ item_id amount,
       ∀ s ∈ (calculate_recipe_tree_by_item c item_id amount depth max_depth).1,
         depth ≤ s.depth) := by
  induction fuel with
  | zero =>
    intro c depth max_depth hf
    constructor
    · intro rid n s hs
      rw [calculate_by_recipe_depth_exceeded c rid n depth max_depth (by omega)] at hs
      simp at hs
    · intro i n s hs
      rw [calculate_by_item_depth_exceeded c i n depth max_depth (by omega)] at hs
      simp at hs
  | succ fuel ih =>
    intro c depth max_depth hf
    by_cases hdepth : max_depth < depth
    · constructor
      · intro rid n s hs
        rw [calculate_by_recipe_depth_exceeded c rid n depth max_depth hdepth] at hs
        simp at hs
      · intro i n s hs
        rw [calculate_by_item_depth_exceeded c i n depth max_depth hdepth] at hs
        simp at hs
    have hrec : ∀ recipe_id amount,
        ∀ s ∈ (calculate_recipe_tree_by_recipe c recipe_id amount depth max_depth).1,
          depth ≤ s.depth := by
      intro rid n s hs
      cases hr : c.recipe rid with
      | none =>
        rw [calculate_by_recipe_missing c rid n depth max_depth hr] at hs
        simp at hs
      | some r =>
        by_cases hcons : r.consumed_items = []
        · rw [calculate_by_recipe_gathering c rid n depth max_depth r (by omega) hr hcons] at hs
          simp at hs
        · rw [calculate_by_recipe_main c rid n depth max_depth r (by omega) hr hcons] at hs
          rcases List.mem_cons.mp hs with hs | hs
          · rw [hs]
          · rw [mem_steps_foldl] at hs
            obtain ⟨br, hbr, hsbr⟩ := hs
            have hItem := (ih c (depth + 1) max_depth (by omega)).2
            have := expand_consumed_items_steps_ge c (depth + 1) max_depth hItem
              r.consumed_items _ br hbr s hsbr
            omega
    refine ⟨hrec, ?_⟩
    intro i n s hs
    by_cases hp : c.produced_by i = []
    · rw [calculate_by_item_no_producers c i n depth max_depth (by omega) hp] at hs
      simp at hs
    rcases hfind : find_suitable_recipe c (c.produced_by i) with _ | rid
    · rw [calculate_by_item_no_suitable c i n depth max_depth (by omega) hfind] at hs
      simp at hs
    · cases rid with
      | zero =>
        rw [calculate_by_item_zero_selected c i n depth max_depth (by omega) hfind] at hs
        simp at hs
      | succ k =>
        rw [calculate_by_item_selected c i n depth max_depth (k + 1) (by omega) hfind
          (by omega)] at hs
        exact hrec (k + 1) n s hs

/-! ### Concrete catalogs used in scenario theorems and witnesses -/

/-- A catalog with no items and no recipes. -/
def empty_catalog : Catalog where
  item_name := fun _ => none
  produced_by := fun _ => []
  recipe := fun _ => none

/-- The catalog of the end-to-end scenario: item 1 (`X`) is produced 1-per-run
by recipe 10 from 2 of item 2 (`A`) and 1 of item 3 (`B`); `A` has no
producer; `B` is produced 1-per-run by recipe 11 from 3 `A`. -/
def c1_catalog : Catalog where
  item_name := fun item_id =>
    if item_id = 1 then some "X"
    else if item_id = 2 then some "A"
    else if item_id = 3 then some "B"
    else none
  produced_by := fun item_id =>
    if item_id = 1 then [10] else if item_id = 3 then [11] else []
  recipe := fun recipe_id =>
    match recipe_id with
    | 10 => some { building_type_requirement := 0
                   consumed_items := [{ item_id := 2, amount := 2 }, { item_id := 3, amount := 1 }]
                   produced_items := [{ item_id := 1, amount := 1 }] }
    | 11 => some { building_type_requirement := 0
                   consumed_items := [{ item_id := 2, amount := 3 }]
                   produced_items := [{ item_id := 3, amount := 1 }] }
    | _ => none

/-- A three-recipe production chain 1 ← 2 ← 3 ← 4 used to exhibit silent
truncation at `max_depth = 1`. -/
def chain_catalog : Catalog where
  item_name := fun item_id =>
    if item_id = 1 then some "L1"
    else if item_id = 2 then some "L2"
    else if item_id = 3 then some "L3"
    else if item_id = 4 then some "L4"
    else none
  produced_by := fun item_id =>
    if item_id = 1 then [10] else if item_id = 2 then [20] else if item_id = 3 then [30] else []
  recipe := fun recipe_id =>
    match recipe_id with
    | 10 => some { building_type_requirement := 0
                   consumed_items := [{ item_id := 2, amount := 1 }]
                   produced_items := [{ item_id := 1, amount := 1 }] }
    | 20 => some { building_type_requirement := 0
                   consumed_items := [{ item_id := 3, amount := 1 }]
                   produced_items := [{ item_id := 2, amount := 1 }] }
    | 30 => some { building_type_requirement := 0
                   consumed_items := [{ item_id := 4, amount := 1 }]
                   produced_items := [{ item_id := 3, amount := 1 }] }
    | _ => none

/-! ### C1 -/

/-- C1: in the catalog where item `X` has one recipe producing 1 `X` per run
from 2 `A` + 1 `B`, `A` has no producer and `B` has one recipe producing 1 `B`
from 3 `A`, resolving `X` with amount 2 computes 2 recipe runs, a depth-0 step
listing `A`×4 and `B`×2, a depth-1 step for `B`'s expansion listing `A`×6,
and exactly one aggregated base material, `A`×10. -/
theorem claim_c1_resolve_scenario :
    recipe_runs 2 1 = 2 ∧
    get_item_recipe_tree c1_catalog 1 2 = .ok
      { recipe_id := 10, item_id := 1, item_name := "X"
        steps := [
          { depth := 0, items := [
              { item_id := 2, item_name := "A", amount := 4, is_base_material := false },
              { item_id := 3, item_name := "B", amount := 2, is_base_material := false } ] },
          { depth := 1, items := [
              { item_id := 2, item_name := "A", amount := 6, is_base_material := false } ] } ]
        base_materials := [
          { item_id := 2, item_name := "A", amount := 10, is_base_material := true } ] } := by
  constructor
  · rfl
  · simp [get_item_recipe_tree, c1_catalog, find_suitable_recipe, is_suitable_recipe,
      calculate_recipe_tree_by_recipe, calculate_recipe_tree_by_item, expand_consumed_items,
      recipe_runs, main_produced_amount, merge_base_materials, add_base_material,
      base_material_entry, consumed_step_item, item_name_or_unknown, REFORGING_BUILDING_TYPE]

/-! ### C4 -/

/-- C4: whenever the expander is invoked with `depth > max_depth` it returns
`([], [])` for any catalog, item, recipe and amount; consequently, resolving
the depth-3 chain catalog with `max_depth = 1` yields a non-empty but
truncated result (the depth-2 requirement of item 4 and all base materials
are silently dropped) without any error. -/
theorem claim_c4_depth_guard :
    (∀ (c : Catalog) (item_id recipe_id amount depth max_depth : Nat),
       max_depth < depth →
       calculate_recipe_tree_by_item c item_id amount depth max_depth = ([], []) ∧
       calculate_recipe_tree_by_recipe c recipe_id amount depth max_depth = ([], [])) ∧
    (calculate_recipe_tree_by_recipe chain_catalog 10 1 0 1
      = ([ { depth := 0, items := [
               { item_id := 2, item_name := "L2", amount := 1, is_base_material := false } ] },
           { depth := 1, items := [
               { item_id := 3, item_name := "L3", amount := 1, is_base_material := false } ] } ],
         []) ∧
     (calculate_recipe_tree_by_recipe chain_catalog 10 1 0 1).1 ≠ []) := by
  refine ⟨?_, ?_, ?_⟩
  · intro c item_id recipe_id amount depth max_depth h
    exact ⟨calculate_by_item_depth_exceeded c item_id amount depth max_depth h,
      calculate_by_recipe_depth_exceeded c recipe_id amount depth max_depth h⟩
  · simp [chain_catalog, find_suitable_recipe, is_suitable_recipe,
      calculate_recipe_tree_by_recipe, calculate_recipe_tree_by_item, expand_consumed_items,
      recipe_runs, main_produced_amount, merge_base_materials, add_base_material,
      base_material_entry, consumed_step_item, item_name_or_unknown, REFORGING_BUILDING_TYPE]
  · simp [chain_catalog, find_suitable_recipe, is_suitable_recipe,
      calculate_recipe_tree_by_recipe, calculate_recipe_tree_by_item, expand_consumed_items,
      recipe_runs, main_produced_amount, merge_base_materials, add_base_material,
      base_material_entry, consumed_step_item, item_name_or_unknown, REFORGING_BUILDING_TYPE]

/-- Witness for C4 at a concrete input. -/
theorem claim_c4_depth_guard_witness :
    (1 : Nat) < 2 ∧
    calculate_recipe_tree_by_item empty_catalog 3 4 2 1 = ([], []) ∧
    calculate_recipe_tree_by_recipe empty_catalog 5 4 2 1 = ([], []) :=
  ⟨by norm_num,
   (claim_c4_depth_guard.1 empty_catalog 3 5 4 2 1 (by norm_num)).1,
   (claim_c4_depth_guard.1 empty_catalog 3 5 4 2 1 (by norm_num)).2⟩

/-! ### C10 -/

/-- C10: when the catalog recipe lookup returns nothing, the recursive
expander returns `([], [])` — no steps, no base materials, no error — so a
missing recipe below the root contributes nothing to the result. -/
theorem claim_c10_missing_recipe (c : Catalog) (recipe_id amount depth max_depth : Nat)
    (hr : c.recipe recipe_id = none) :
    calculate_recipe_tree_by_recipe c recipe_id amount depth max_depth = ([], []) :=
  calculate_by_recipe_missing c recipe_id amount depth max_depth hr

/-- Witness for C10 at a concrete input. -/
theorem claim_c10_missing_recipe_witness :
    calculate_recipe_tree_by_recipe empty_catalog 42 3 0 10 = ([], []) :=
  claim_c10_missing_recipe empty_catalog 42 3 0 10 rfl

/-! ### C9 -/

/-- C9: over a catalog in which every consumed-item and produced-item per-run
amount is a positive integer, and for every requested amount ≥ 1, every
amount in the steps and base-material lists returned by either expander entry
point is a positive integer. -/
theorem claim_c9_positive_amounts (c : Catalog) (hc : pos_catalog c)
    (item_id recipe_id amount depth max_depth : Nat) (hn : 1 ≤ amount) :
    (∀ s ∈ (calculate_recipe_tree_by_item c item_id amount depth max_depth).1,
       ∀ it ∈ s.items, 1 ≤ it.amount) ∧
    (∀ b ∈ (calculate_recipe_tree_by_item c item_id amount depth max_depth).2,
       1 ≤ b.amount) ∧
    (∀ s ∈ (calculate_recipe_tree_by_recipe c recipe_id amount depth max_depth).1,
       ∀ it ∈ s.items, 1 ≤ it.amount) ∧
    (∀ b ∈ (calculate_recipe_tree_by_recipe c recipe_id amount depth max_depth).2,
       1 ≤ b.amount) := by
  have h := pos_invariant (max_depth + 1 - depth) c hc depth max_depth le_rfl
  exact ⟨(h.2 item_id amount hn).1, (h.2 item_id amount hn).2,
    (h.1 recipe_id amount hn).1, (h.1 recipe_id amount hn).2⟩

/-- Witness for C9 at a concrete input. -/
theorem claim_c9_positive_amounts_witness :
    (∀ s ∈ (calculate_recipe_tree_by_item c1_catalog 1 2 0 10).1,
       ∀ it ∈ s.items, 1 ≤ it.amount) ∧
    (∀ b ∈ (calculate_recipe_tree_by_item c1_catalog 1 2 0 10).2,
       1 ≤ b.amount) ∧
    (∀ s ∈ (calculate_recipe_tree_by_recipe c1_catalog 10 2 0 10).1,
       ∀ it ∈ s.items, 1 ≤ it.amount) ∧
    (∀ b ∈ (calculate_recipe_tree_by_recipe c1_catalog 10 2 0 10).2,
       1 ≤ b.amount) := by
  refine claim_c9_positive_amounts c1_catalog ?_ 1 10 2 0 10 (by norm_num)
  intro rid r hr
  simp only [c1_catalog] at hr
  split at hr
  · cases hr
    decide
  · cases hr
    decide
  · exact absurd hr (by simp)

/-! ### C2 -/

/-- Catalog with a single recipe producing 3 of item 9 per run from 2 of
item 8; item 8 has no producer. -/
def c2_catalog : Catalog where
  item_name := fun item_id =>
    if item_id = 8 then some "Ore" else if item_id = 9 then some "Bar" else none
  produced_by := fun item_id =>
    if item_id = 9 then [1] else []
  recipe := fun recipe_id =>
    match recipe_id with
    | 1 => some { building_type_requirement := 0
                  consumed_items := [{ item_id := 8, amount := 2 }]
                  produced_items := [{ item_id := 9, amount := 3 }] }
    | _ => none

/-- C2: for a recipe whose first produced item yields `p ≥ 1` per run and a
requested amount `n ≥ 1`, the expander computes `recipe_runs = ⌈n / p⌉`, and
the step recorded at the current depth lists every consumed item with amount
equal to its per-run amount times that ceiling. -/
theorem claim_c2_ceiling_division (c : Catalog) (recipe_id amount depth max_depth : Nat)
    (recipe_orm : GameItemRecipe) (main_produced_item : RecipeItemStack)
    (rest : List RecipeItemStack)
    (hr : c.recipe recipe_id = some recipe_orm)
    (hprod : recipe_orm.produced_items = main_produced_item :: rest)
    (hp : 1 ≤ main_produced_item.amount) (hn : 1 ≤ amount)
    (hcons : recipe_orm.consumed_items ≠ []) (hd : depth ≤ max_depth) :
    recipe_runs amount main_produced_item.amount
      = ⌈(amount : ℚ) / (main_produced_item.amount : ℚ)⌉₊ ∧
    (calculate_recipe_tree_by_recipe c recipe_id amount depth max_depth).1.head?
      = some { depth := depth
               items := recipe_orm.consumed_items.map (fun consumed_item =>
                 { item_id := consumed_item.item_id
                   item_name := item_name_or_unknown c consumed_item.item_id
                   amount := consumed_item.amount
                     * ⌈(amount : ℚ) / (main_produced_item.amount : ℚ)⌉₊
                   is_base_material := false }) } := by
  have hceil := recipe_runs_eq_ceil amount main_produced_item.amount hn hp
  have hmain : main_produced_amount recipe_orm = main_produced_item.amount := by
    rw [main_produced_amount, hprod]
  refine ⟨hceil, ?_⟩
  rw [calculate_by_recipe_main c recipe_id amount depth max_depth recipe_orm hd hr hcons]
  rw [List.head?_cons]
  rw [hmain, ← hceil]
  rfl

/-- Witness for C2 at a concrete input: producing 3 per run with requested
amount 7 gives 3 recipe runs and a consumed amount of 2 × 3. -/
theorem claim_c2_ceiling_division_witness :
    recipe_runs 7 3 = ⌈(7 : ℚ) / (3 : ℚ)⌉₊ ∧
    (calculate_recipe_tree_by_recipe c2_catalog 1 7 0 10).1.head?
      = some { depth := 0
               items := [{ item_id := 8, item_name := "Ore"
                           amount := 2 * ⌈(7 : ℚ) / (3 : ℚ)⌉₊
                           is_base_material := false }] } := by
  have h := claim_c2_ceiling_division c2_catalog 1 7 0 10
    { building_type_requirement := 0
      consumed_items := [{ item_id := 8, amount := 2 }]
      produced_items := [{ item_id := 9, amount := 3 }] }
    { item_id := 9, amount := 3 } [] rfl rfl (by norm_num) (by norm_num) (by simp)
    (by norm_num)
  refine ⟨h.1, ?_⟩
  rw [h.2]
  simp [item_name_or_unknown, c2_catalog]

/-! ### C5 -/

theorem is_suitable_recipe_false (c : Catalog) (recipe_id : Nat)
    (h : ∀ q, c.recipe recipe_id = some q →
      q.building_type_requirement = REFORGING_BUILDING_TYPE) :
    is_suitable_recipe c recipe_id = false := by
  rw [is_suitable_recipe]
  cases hq : c.recipe recipe_id with
  | none => rfl
  | some q => simp [h q hq]

theorem is_suitable_recipe_true (c : Catalog) (recipe_id : Nat) (q : GameItemRecipe)
    (hq : c.recipe recipe_id = some q)
    (hb : q.building_type_requirement ≠ REFORGING_BUILDING_TYPE) :
    is_suitable_recipe c recipe_id = true := by
  rw [is_suitable_recipe, hq]
  simp [hb]

theorem find_suitable_recipe_none (c : Catalog) (l : List Nat)
    (h : ∀ r ∈ l, is_suitable_recipe c r = false) :
    find_suitable_recipe c l = none := by
  induction l with
  | nil => rfl
  | cons x t ih =>
    rw [find_suitable_recipe]
    rw [h x (by simp)]
    simp only [Bool.false_eq_true, if_false]
    exact ih (fun r hr => h r (by simp [hr]))

theorem find_suitable_recipe_append (c : Catalog) (pre : List Nat) (recipe_id : Nat)
    (post : List Nat) (hpre : ∀ r ∈ pre, is_suitable_recipe c r = false)
    (hsel : is_suitable_recipe c recipe_id = true) :
    find_suitable_recipe c (pre ++ recipe_id :: post) = some recipe_id := by
  induction pre with
  | nil =>
    rw [List.nil_append, find_suitable_recipe, hsel]
    simp
  | cons x t ih =>
    rw [List.cons_append, find_suitable_recipe]
    rw [hpre x (by simp)]
    simp only [Bool.false_eq_true, if_false]
    exact ih (fun r hr => hpre r (by simp [hr]))

/-- Catalog in which item 1 has a reforging producer (recipe 100) followed by
a normal producer (recipe 200), while item 2 has only the reforging
producer. -/
def reforge_catalog : Catalog where
  item_name := fun item_id =>
    if item_id = 1 then some "Blade" else if item_id = 2 then some "Hilt" else none
  produced_by := fun item_id =>
    if item_id = 1 then [100, 200] else if item_id = 2 then [100] else []
  recipe := fun recipe_id =>
    match recipe_id with
    | 100 => some { building_type_requirement := 127749503
                    consumed_items := [{ item_id := 9, amount := 1 }]
                    produced_items := [{ item_id := 1, amount := 1 }] }
    | 200 => some { building_type_requirement := 7
                    consumed_items := [{ item_id := 9, amount := 2 }]
                    produced_items := [{ item_id := 1, amount := 1 }] }
    | _ => none

/-- C5: recipe selection returns the first candidate in catalog order whose
`building_type_requirement` is not the reforging constant (so a reforging
first candidate followed by a non-reforging one yields the second); when
every candidate is reforging the item is treated as a base material at the
requested amount. -/
theorem claim_c5_recipe_selection :
    (∀ (c : Catalog) (pre : List Nat) (recipe_id : Nat) (post : List Nat)
       (q : GameItemRecipe),
       (∀ r ∈ pre, ∀ qr, c.recipe r = some qr →
         qr.building_type_requirement = REFORGING_BUILDING_TYPE) →
       c.recipe recipe_id = some q →
       q.building_type_requirement ≠ REFORGING_BUILDING_TYPE →
       find_suitable_recipe c (pre ++ recipe_id :: post) = some recipe_id) ∧
    (∀ (c : Catalog) (id1 id2 : Nat) (r1 r2 : GameItemRecipe),
       c.recipe id1 = some r1 →
       r1.building_type_requirement = REFORGING_BUILDING_TYPE →
       c.recipe id2 = some r2 →
       r2.building_type_requirement ≠ REFORGING_BUILDING_TYPE →
       find_suitable_recipe c [id1, id2] = some id2) ∧
    (∀ (c : Catalog) (item_id amount depth max_depth : Nat),
       depth ≤ max_depth → c.produced_by item_id ≠ [] →
       (∀ rid ∈ c.produced_by item_id, ∀ r, c.recipe rid = some r →
         r.building_type_requirement = REFORGING_BUILDING_TYPE) →
       calculate_recipe_tree_by_item c item_id amount depth max_depth
         = ([], [{ item_id := item_id, item_name := item_name_or_unknown c item_id,
                   amount := amount, is_base_material := true }])) := by
  refine ⟨?_, ?_, ?_⟩
  · intro c pre recipe_id post q hpre hq hb
    exact find_suitable_recipe_append c pre recipe_id post
      (fun r hr => is_suitable_recipe_false c r (hpre r hr))
      (is_suitable_recipe_true c recipe_id q hq hb)
  · intro c id1 id2 r1 r2 h1 hb1 h2 hb2
    have := find_suitable_recipe_append c [id1] id2 []
      (fun r hr => by
        simp at hr
        subst hr
        exact is_suitable_recipe_false c r (fun qr hqr => by
          rw [h1] at hqr
          cases hqr
          exact hb1))
      (is_suitable_recipe_true c id2 r2 h2 hb2)
    simpa using this
  · intro c item_id amount depth max_depth hd hne hall
    have hfind : find_suitable_recipe c (c.produced_by item_id) = none :=
      find_suitable_recipe_none c _
        (fun r hr => is_suitable_recipe_false c r (hall r hr))
    exact calculate_by_item_no_suitable c item_id amount depth max_depth hd hfind

/-- Witness for C5 at concrete inputs: in `reforge_catalog` the selector
skips reforging recipe 100 and returns 200, and item 2 (only reforging
producers) falls back to a base material at the requested amount 5. -/
theorem claim_c5_recipe_selection_witness :
    find_suitable_recipe reforge_catalog [100, 200] = some 200 ∧
    calculate_recipe_tree_by_item reforge_catalog 2 5 0 10
      = ([], [{ item_id := 2, item_name := item_name_or_unknown reforge_catalog 2,
                amount := 5, is_base_material := true }]) := by
  constructor
  · exact claim_c5_recipe_selection.2.1 reforge_catalog 100 200
      { building_type_requirement := 127749503
        consumed_items := [{ item_id := 9, amount := 1 }]
        produced_items := [{ item_id := 1, amount := 1 }] }
      { building_type_requirement := 7
        consumed_items := [{ item_id := 9, amount := 2 }]
        produced_items := [{ item_id := 1, amount := 1 }] }
      rfl rfl rfl (by decide)
  · refine claim_c5_recipe_selection.2.2 reforge_catalog 2 5 0 10 (by norm_num)
      (by simp [reforge_catalog]) ?_
    intro rid hrid r hr
    simp only [reforge_catalog] at hrid
    simp at hrid
    subst hrid
    simp only [reforge_catalog] at hr
    cases hr
    rfl

/-! ### C6 -/

/-- Catalog with one item (id 7, `Stone`) that has no producer recipes. -/
def c6_catalog : Catalog where
  item_name := fun item_id => if item_id = 7 then some "Stone" else none
  produced_by := fun _ => []
  recipe := fun _ => none

/-- C6 fails as stated: for an existing item with zero producer candidates
the root route raises 404 instead of returning a base-material result. -/
theorem claim_c6_counterexample :
    get_item_recipe_tree c6_catalog 7 5 = .error (404, "No recipe found for this item") := by
  simp [get_item_recipe_tree, c6_catalog]

/-- C6 amended: for an item with zero producer candidates the root-level
route fails with 404 `"No recipe found for this item"` (when the item row
exists), while the recursive helper `calculate_recipe_tree_by_item` is the
operation that returns `steps = []` and `baseMaterials = [{item, n}]`. -/
theorem claim_c6_zero_producer_root (c : Catalog) (item_id amount depth max_depth : Nat)
    (name : String) (hp : c.produced_by item_id = []) :
    (c.item_name item_id = some name →
       get_item_recipe_tree c item_id amount
         = .error (404, "No recipe found for this item")) ∧
    (depth ≤ max_depth →
       calculate_recipe_tree_by_item c item_id amount depth max_depth
         = ([], [{ item_id := item_id, item_name := item_name_or_unknown c item_id,
                   amount := amount, is_base_material := true }])) := by
  constructor
  · intro hname
    simp [get_item_recipe_tree, hname, hp]
  · intro hd
    exact calculate_by_item_no_producers c item_id amount depth max_depth hd hp

/-- Witness for the amended C6 at a concrete input. -/
theorem claim_c6_zero_producer_root_witness :
    get_item_recipe_tree c6_catalog 7 5 = .error (404, "No recipe found for this item") ∧
    calculate_recipe_tree_by_item c6_catalog 7 5 0 10
      = ([], [{ item_id := 7, item_name := item_name_or_unknown c6_catalog 7,
                amount := 5, is_base_material := true }]) :=
  ⟨(claim_c6_zero_producer_root c6_catalog 7 5 0 10 "Stone" rfl).1 rfl,
   (claim_c6_zero_producer_root c6_catalog 7 5 0 10 "Stone" rfl).2 (by norm_num)⟩

/-! ### C7 -/

/-- Two independent depth-2 production branches below the root recipe:
item 1 needs items 2 and 3; item 2 needs 4 which needs 9; item 3 needs 5
which needs 9; item 9 is a base material. -/
def deep_catalog : Catalog where
  item_name := fun item_id =>
    if item_id = 1 then some "Root"
    else if item_id = 2 then some "P"
    else if item_id = 3 then some "Q"
    else if item_id = 4 then some "U"
    else if item_id = 5 then some "V"
    else if item_id = 9 then some "Base"
    else none
  produced_by := fun item_id =>
    if item_id = 1 then [10]
    else if item_id = 2 then [21]
    else if item_id = 3 then [31]
    else if item_id = 4 then [41]
    else if item_id = 5 then [51]
    else []
  recipe := fun recipe_id =>
    match recipe_id with
    | 10 => some { building_type_requirement := 0
                   consumed_items := [{ item_id := 2, amount := 1 }, { item_id := 3, amount := 1 }]
                   produced_items := [{ item_id := 1, amount := 1 }] }
    | 21 => some { building_type_requirement := 0
                   consumed_items := [{ item_id := 4, amount := 1 }]
                   produced_items := [{ item_id := 2, amount := 1 }] }
    | 31 => some { building_type_requirement := 0
                   consumed_items := [{ item_id := 5, amount := 1 }]
                   produced_items := [{ item_id := 3, amount := 1 }] }
    | 41 => some { building_type_requirement := 0
                   consumed_items := [{ item_id := 9, amount := 1 }]
                   produced_items := [{ item_id := 4, amount := 1 }] }
    | 51 => some { building_type_requirement := 0
                   consumed_items := [{ item_id := 9, amount := 1 }]
                   produced_items := [{ item_id := 5, amount := 1 }] }
    | _ => none

/-- C7 fails as stated: the steps of two sibling branches are concatenated,
so the depth sequence of the returned list is `[0, 1, 2, 1, 2]` and the list
is not ordered by non-decreasing depth. -/
theorem claim_c7_counterexample :
    ((calculate_recipe_tree_by_recipe deep_catalog 10 1 0 10).1.map (fun s => s.depth))
      = [0, 1, 2, 1, 2] ∧
    ¬ List.Pairwise (fun s t => s.depth ≤ t.depth)
        (calculate_recipe_tree_by_recipe deep_catalog 10 1 0 10).1 := by
  have hev : (calculate_recipe_tree_by_recipe deep_catalog 10 1 0 10).1
      = [ { depth := 0, items := [
              { item_id := 2, item_name := "P", amount := 1, is_base_material := false },
              { item_id := 3, item_name := "Q", amount := 1, is_base_material := false } ] },
          { depth := 1, items := [
              { item_id := 4, item_name := "U", amount := 1, is_base_material := false } ] },
          { depth := 2, items := [
              { item_id := 9, item_name := "Base", amount := 1, is_base_material := false } ] },
          { depth := 1, items := [
              { item_id := 5, item_name := "V", amount := 1, is_base_material := false } ] },
          { depth := 2, items := [
              { item_id := 9, item_name := "Base", amount := 1, is_base_material := false } ] } ] := by
    simp [deep_catalog, find_suitable_recipe, is_suitable_recipe,
      calculate_recipe_tree_by_recipe, calculate_recipe_tree_by_item, expand_consumed_items,
      recipe_runs, main_produced_amount, merge_base_materials, add_base_material,
      base_material_entry, consumed_step_item, item_name_or_unknown, REFORGING_BUILDING_TYPE]
  constructor
  · rw [hev]
    rfl
  · rw [hev]
    decide

/-- C7 amended: when the recipe lookup succeeds, `depth ≤ max_depth` and the
recipe consumes something, the step for the current depth is placed at the
front of the returned list, and every step in the list has depth at least the
current depth (so the front step is of minimal depth); the list as a whole is
not globally sorted by depth. -/
theorem claim_c7_step_order (c : Catalog) (recipe_id amount depth max_depth : Nat)
    (recipe_orm : GameItemRecipe) (hd : depth ≤ max_depth)
    (hr : c.recipe recipe_id = some recipe_orm)
    (hcons : recipe_orm.consumed_items ≠ []) :
    (calculate_recipe_tree_by_recipe c recipe_id amount depth max_depth).1.head?
      = some { depth := depth
               items := recipe_orm.consumed_items.map (fun consumed_item =>
                 consumed_step_item c consumed_item
                   (recipe_runs amount (main_produced_amount recipe_orm))) } ∧
    ∀ s ∈ (calculate_recipe_tree_by_recipe c recipe_id amount depth max_depth).1,
      depth ≤ s.depth := by
  constructor
  · rw [calculate_by_recipe_main c recipe_id amount depth max_depth recipe_orm hd hr hcons]
    rfl
  · exact (steps_depth_invariant (max_depth + 1 - depth) c depth max_depth le_rfl).1
      recipe_id amount

/-- Witness for the amended C7 at a concrete input. -/
theorem claim_c7_step_order_witness :
    (calculate_recipe_tree_by_recipe deep_catalog 10 1 0 10).1.head?
      = some { depth := 0, items := [
          { item_id := 2, item_name := "P", amount := 1, is_base_material := false },
          { item_id := 3, item_name := "Q", amount := 1, is_base_material := false } ] } := by
  have h := (claim_c7_step_order deep_catalog 10 1 0 10
    { building_type_requirement := 0
      consumed_items := [{ item_id := 2, amount := 1 }, { item_id := 3, amount := 1 }]
      produced_items := [{ item_id := 1, amount := 1 }] }
    (by norm_num) rfl (by simp)).1
  rw [h]
  simp [consumed_step_item, item_name_or_unknown, deep_catalog, recipe_runs,
    main_produced_amount]

/-! ### C8 -/

/-- Catalog with a produced-items-free recipe 1, a gathering recipe 2
producing item 5, and no recipe 3. -/
def c8_catalog : Catalog where
  item_name := fun item_id => if item_id = 5 then some "Plank" else none
  produced_by := fun _ => []
  recipe := fun recipe_id =>
    match recipe_id with
    | 1 => some { building_type_requirement := 0
                  consumed_items := []
                  produced_items := [] }
    | 2 => some { building_type_requirement := 0
                  consumed_items := []
                  produced_items := [{ item_id := 5, amount := 2 }] }
    | _ => none

/-- C8 fails as stated: a recipe with an empty produced-items list makes the
route fail with HTTP 400 (`"Recipe produces no items"`), not with the 404
Not-Found error kind. -/
theorem claim_c8_counterexample :
    get_recipe_tree c8_catalog 1 1 = .error (400, "Recipe produces no items") := by
  simp [get_recipe_tree, c8_catalog]

/-- C8 amended: the recipe-tree route fails exactly when the recipe id is
unknown (404, `"Recipe not found"`) or its produced-items list is empty
(400, `"Recipe produces no items"`); in every other case it returns a
`RecipeTreeResponse`. -/
theorem claim_c8_recipe_tree_failures (c : Catalog) (recipe_id amount : Nat) :
    (c.recipe recipe_id = none →
       get_recipe_tree c recipe_id amount = .error (404, "Recipe not found")) ∧
    (∀ recipe_orm, c.recipe recipe_id = some recipe_orm →
       recipe_orm.produced_items = [] →
       get_recipe_tree c recipe_id amount = .error (400, "Recipe produces no items")) ∧
    (∀ recipe_orm main_produced_item rest,
       c.recipe recipe_id = some recipe_orm →
       recipe_orm.produced_items = main_produced_item :: rest →
       get_recipe_tree c recipe_id amount = .ok
         { recipe_id := recipe_id
           item_id := main_produced_item.item_id
           item_name := item_name_or_unknown c main_produced_item.item_id
           steps := (calculate_recipe_tree_by_recipe c recipe_id amount 0 10).1
           base_materials := (calculate_recipe_tree_by_recipe c recipe_id amount 0 10).2 }) := by
  refine ⟨?_, ?_, ?_⟩
  · intro h
    simp [get_recipe_tree, h]
  · intro recipe_orm hr hp
    simp [get_recipe_tree, hr, hp]
  · intro recipe_orm main_produced_item rest hr hp
    simp [get_recipe_tree, hr, hp]

/-- Witness for the amended C8 at concrete inputs: one unknown recipe, one
recipe without produced items, one well-formed recipe. -/
theorem claim_c8_recipe_tree_failures_witness :
    get_recipe_tree c8_catalog 3 1 = .error (404, "Recipe not found") ∧
    get_recipe_tree c8_catalog 1 2 = .error (400, "Recipe produces no items") ∧
    get_recipe_tree c8_catalog 2 1 = .ok
      { recipe_id := 2, item_id := 5, item_name := item_name_or_unknown c8_catalog 5
        steps := (calculate_recipe_tree_by_recipe c8_catalog 2 1 0 10).1
        base_materials := (calculate_recipe_tree_by_recipe c8_catalog 2 1 0 10).2 } :=
  ⟨(claim_c8_recipe_tree_failures c8_catalog 3 1).1 rfl,
   (claim_c8_recipe_tree_failures c8_catalog 1 2).2.1 _ rfl rfl,
   (claim_c8_recipe_tree_failures c8_catalog 2 1).2.2 _ _ _ rfl rfl⟩

/-! ### C3 -/

theorem foldl_merge_nodup (branches : List (List RecipeTreeStep × List RecipeTreeItem))
    (init : List RecipeTreeItem) (h : (material_ids init).Nodup) :
    (material_ids (branches.foldl (fun acc br => merge_base_materials acc br.2) init)).Nodup := by
  induction branches generalizing init with
  | nil => exact h
  | cons br rest ih =>
    simp only [List.foldl_cons]
    exact ih _ (nodup_merge_base init br.2 h)

theorem foldl_merge_amount (i : Nat) (branches : List (List RecipeTreeStep × List RecipeTreeItem))
    (init : List RecipeTreeItem) :
    amount_recorded i (branches.foldl (fun acc br => merge_base_materials acc br.2) init)
      = amount_recorded i init + (branches.map (fun br => amount_recorded i br.2)).sum := by
  induction branches generalizing init with
  | nil => simp
  | cons br rest ih =>
    simp only [List.foldl_cons, List.map_cons, List.sum_cons]
    rw [ih, amount_recorded_merge]
    omega

theorem expand_consumed_items_map_base (c : Catalog) (consumed : List RecipeItemStack)
    (runs depth max_depth : Nat) (f : List RecipeTreeItem → Nat) :
    (expand_consumed_items c consumed runs depth max_depth).map (fun br => f br.2)
      = consumed.map (fun ci => f (calculate_recipe_tree_by_item c ci.item_id
          (ci.amount * runs) depth max_depth).2) := by
  induction consumed with
  | nil =>
    rw [expand_consumed_items_nil]
    rfl
  | cons ci rest ih =>
    rw [expand_consumed_items_cons]
    simp only [List.map_cons]
    rw [ih]

/-- Catalog with a gathering recipe whose produced-item list repeats item 5. -/
def dup_gather_catalog : Catalog where
  item_name := fun item_id => if item_id = 5 then some "Gem" else none
  produced_by := fun _ => []
  recipe := fun recipe_id =>
    match recipe_id with
    | 1 => some { building_type_requirement := 0
                  consumed_items := []
                  produced_items := [{ item_id := 5, amount := 1 }, { item_id := 5, amount := 1 }] }
    | _ => none

/-- C3 fails as stated: a gathering recipe that lists the same produced item
twice yields a base-material list with two entries for the same item id. -/
theorem claim_c3_counterexample :
    get_recipe_tree dup_gather_catalog 1 1 = .ok
      { recipe_id := 1, item_id := 5, item_name := "Gem"
        steps := []
        base_materials := [
          { item_id := 5, item_name := "Gem", amount := 1, is_base_material := true },
          { item_id := 5, item_name := "Gem", amount := 1, is_base_material := true } ] } ∧
    ¬ (material_ids (calculate_recipe_tree_by_recipe dup_gather_catalog 1 1 0 10).2).Nodup := by
  have hev : (calculate_recipe_tree_by_recipe dup_gather_catalog 1 1 0 10).2
      = [ { item_id := 5, item_name := "Gem", amount := 1, is_base_material := true },
          { item_id := 5, item_name := "Gem", amount := 1, is_base_material := true } ] := by
    simp [dup_gather_catalog, calculate_recipe_tree_by_recipe, base_material_entry,
      item_name_or_unknown]
  constructor
  · simp [get_recipe_tree, dup_gather_catalog, calculate_recipe_tree_by_recipe,
      base_material_entry, item_name_or_unknown]
  · rw [hev]
    decide

/-- Two branches that each consume 2 of base item 9. -/
def two_branch_catalog : Catalog where
  item_name := fun item_id =>
    if item_id = 1 then some "Top"
    else if item_id = 2 then some "Left"
    else if item_id = 3 then some "Right"
    else if item_id = 9 then some "Dust"
    else none
  produced_by := fun item_id =>
    if item_id = 1 then [10] else if item_id = 2 then [21] else if item_id = 3 then [31] else []
  recipe := fun recipe_id =>
    match recipe_id with
    | 10 => some { building_type_requirement := 0
                   consumed_items := [{ item_id := 2, amount := 1 }, { item_id := 3, amount := 1 }]
                   produced_items := [{ item_id := 1, amount := 1 }] }
    | 21 => some { building_type_requirement := 0
                   consumed_items := [{ item_id := 9, amount := 2 }]
                   produced_items := [{ item_id := 2, amount := 1 }] }
    | 31 => some { building_type_requirement := 0
                   consumed_items := [{ item_id := 9, amount := 2 }]
                   produced_items := [{ item_id := 3, amount := 1 }] }
    | _ => none

/-- C3 amended: over a catalog in which no recipe lists the same produced
item id twice, every result of either expander entry point has at most one
base-material entry per distinct item id, and in the recursive case the
amount recorded for an id is the sum of the amounts recorded by the recursive
branches of the consumed items; in particular two branches that each need 2
of base item 9 merge into the single entry `9 × 4`. -/
theorem claim_c3_aggregation (c : Catalog)
    (hnodup : ∀ rid r, c.recipe rid = some r →
      (r.produced_items.map (fun pi => pi.item_id)).Nodup) :
    (∀ recipe_id amount depth max_depth,
       (material_ids
         (calculate_recipe_tree_by_recipe c recipe_id amount depth max_depth).2).Nodup) ∧
    (∀ item_id amount depth max_depth,
       (material_ids
         (calculate_recipe_tree_by_item c item_id amount depth max_depth).2).Nodup) ∧
    (∀ recipe_id amount depth max_depth recipe_orm i,
       depth ≤ max_depth → c.recipe recipe_id = some recipe_orm →
       recipe_orm.consumed_items ≠ [] →
       amount_recorded i
           (calculate_recipe_tree_by_recipe c recipe_id amount depth max_depth).2
         = (recipe_orm.consumed_items.map (fun ci =>
             amount_recorded i (calculate_recipe_tree_by_item c ci.item_id
               (ci.amount * recipe_runs amount (main_produced_amount recipe_orm))
               (depth + 1) max_depth).2)).sum) ∧
    (calculate_recipe_tree_by_recipe two_branch_catalog 10 1 0 10).2
      = [{ item_id := 9, item_name := "Dust", amount := 4, is_base_material := true }] := by
  have hrec : ∀ recipe_id amount depth max_depth,
      (material_ids
        (calculate_recipe_tree_by_recipe c recipe_id amount depth max_depth).2).Nodup := by
    intro rid n d md
    by_cases hd : md < d
    · rw [calculate_by_recipe_depth_exceeded c rid n d md hd]
      simp [material_ids]
    cases hr : c.recipe rid with
    | none =>
      rw [calculate_by_recipe_missing c rid n d md hr]
      simp [material_ids]
    | some r =>
      by_cases hcons : r.consumed_items = []
      · rw [calculate_by_recipe_gathering c rid n d md r (by omega) hr hcons]
        have key : material_ids
            (r.produced_items.map (fun pi => base_material_entry c pi.item_id n))
            = r.produced_items.map (fun pi => pi.item_id) := by
          simp only [material_ids, List.map_map]
          rfl
        have goal2 : (material_ids
            (r.produced_items.map (fun pi => base_material_entry c pi.item_id n))).Nodup := by
          rw [key]
          exact hnodup rid r hr
        exact goal2
      · rw [calculate_by_recipe_main c rid n d md r (by omega) hr hcons]
        exact foldl_merge_nodup _ [] (by simp [material_ids])
  have hitem : ∀ item_id amount depth max_depth,
      (material_ids
        (calculate_recipe_tree_by_item c item_id amount depth max_depth).2).Nodup := by
    intro i n d md
    by_cases hd : md < d
    · rw [calculate_by_item_depth_exceeded c i n d md hd]
      simp [material_ids]
    by_cases hp : c.produced_by i = []
    · rw [calculate_by_item_no_producers c i n d md (by omega) hp]
      simp [material_ids]
    rcases hf : find_suitable_recipe c (c.produced_by i) with _ | rid
    · rw [calculate_by_item_no_suitable c i n d md (by omega) hf]
      simp [material_ids]
    · cases rid with
      | zero =>
        rw [calculate_by_item_zero_selected c i n d md (by omega) hf]
        simp [material_ids]
      | succ k =>
        rw [calculate_by_item_selected c i n d md (k + 1) (by omega) hf (by omega)]
        exact hrec (k + 1) n d md
  refine ⟨hrec, hitem, ?_, ?_⟩
  · intro rid n d md r i hd hr hcons
    rw [calculate_by_recipe_main c rid n d md r hd hr hcons]
    have h := foldl_merge_amount i
      (expand_consumed_items c r.consumed_items
        (recipe_runs n (main_produced_amount r)) (d + 1) md) []
    rw [expand_consumed_items_map_base c r.consumed_items _ (d + 1) md
      (fun l => amount_recorded i l)] at h
    simpa [amount_recorded] using h
  · simp [two_branch_catalog, find_suitable_recipe, is_suitable_recipe,
      calculate_recipe_tree_by_recipe, calculate_recipe_tree_by_item, expand_consumed_items,
      recipe_runs, main_produced_amount, merge_base_materials, add_base_material,
      base_material_entry, consumed_step_item, item_name_or_unknown, REFORGING_BUILDING_TYPE]

/-- Witness for the amended C3 at a concrete input. -/
theorem claim_c3_aggregation_witness :
    (material_ids (calculate_recipe_tree_by_recipe two_branch_catalog 10 1 0 10).2).Nodup ∧
    amount_recorded 9 (calculate_recipe_tree_by_recipe two_branch_catalog 10 1 0 10).2
      = (([{ item_id := 2, amount := 1 }, { item_id := 3, amount := 1 }]
            : List RecipeItemStack).map (fun ci =>
          amount_recorded 9 (calculate_recipe_tree_by_item two_branch_catalog ci.item_id
            (ci.amount * recipe_runs 1 (main_produced_amount
              { building_type_requirement := 0
                consumed_items := [{ item_id := 2, amount := 1 },
                                   { item_id := 3, amount := 1 }]
                produced_items := [{ item_id := 1, amount := 1 }] }))
            1 10).2)).sum := by
  have hcat : ∀ rid r, two_branch_catalog.recipe rid = some r →
      (r.produced_items.map (fun pi => pi.item_id)).Nodup := by
    intro rid r hr
    simp only [two_branch_catalog] at hr
    split at hr
    · cases hr
      decide
    · cases hr
      decide
    · cases hr
      decide
    · exact absurd hr (by simp)
  have h := claim_c3_aggregation two_branch_catalog hcat
  exact ⟨h.1 10 1 0 10,
    h.2.2.1 10 1 0 10
      { building_type_requirement := 0
        consumed_items := [{ item_id := 2, amount := 1 }, { item_id := 3, amount := 1 }]
        produced_items := [{ item_id := 1, amount := 1 }] }
      9 (by norm_num) rfl (by simp)⟩
